import Mathlib

/-!
Verification development for the SBEKMS knowledge-management backend,
covering the knowledge-graph query engine (`app/api/graph.py`) and the
unified search service (`app/api/search.py`).

Python strings are embedded as `List Char`; Python `str.split(sep)` for a
one-character separator, substring membership (`in`), `startswith`, and
`lower()` are modelled character by character.  Python `float` arithmetic
in the scoring and analytics code is embedded over `ℚ`, with `round(x, n)`
modelled as exact round-half-to-even at `n` decimal digits.
-/

namespace SBEKMS

/-- Characters of a string literal, used to write concrete inputs. -/
def strL (s : String) : List Char := s.data

/-! ## Python string primitives -/
/-- Python `s.split(c)` for a single-character separator `c`. -/
def splitOnChar (c : Char) : List Char → List (List Char)
  | [] => [[]]
  | x :: xs =>
    if x = c then [] :: splitOnChar c xs
    else (x :: (splitOnChar c xs).headI) :: (splitOnChar c xs).tail

/-- Python `s.startswith(p)`: `pyStarts s p` is true when `p` leads `s`. -/
def pyStarts : List Char → List Char → Bool
  | _, [] => true
  | [], _ :: _ => false
  | c :: cs, p :: ps => c == p && pyStarts cs ps

/-- Python `n in h` for strings: `n` occurs as a contiguous substring of `h`. -/
def pyIn (n : List Char) : List Char → Bool
  | [] => pyStarts [] n
  | c :: t => pyStarts (c :: t) n || pyIn n t

/-- Python `s.lower()` (ASCII case folding, which is all the code relies on). -/
def pyLower (s : List Char) : List Char := s.map Char.toLower

/-! ## Local-name extraction (`graph.py` lines 315-339)

`_extract_label_from_uri`, `_extract_class_name` and
`_extract_relationship_name` all split on `#`, then on `/`, and take the
last piece. -/
/-- `_extract_label_from_uri`: label derived from a URI. -/
def extractLabelFromUri (uri : List Char) : List Char :=
  if '#' ∈ uri then (splitOnChar '#' uri).getLastD []
  else if '/' ∈ uri then (splitOnChar '/' uri).getLastD []
  else uri

/-- `_extract_class_name`: class name from a type URI, with the
`Unknown -> Resource` guard. -/
def extractClassName (classUri : List Char) : List Char :=
  if classUri = [] ∨ classUri = strL "Unknown" then strL "Resource"
  else if '#' ∈ classUri then (splitOnChar '#' classUri).getLastD []
  else if '/' ∈ classUri then (splitOnChar '/' classUri).getLastD []
  else classUri

/-- `_extract_relationship_name`: relationship name from a predicate URI. -/
def extractRelationshipName (predicateUri : List Char) : List Char :=
  if '#' ∈ predicateUri then (splitOnChar '#' predicateUri).getLastD []
  else if '/' ∈ predicateUri then (splitOnChar '/' predicateUri).getLastD []
  else predicateUri

/-! ### Specification form of local-name extraction -/
/-- The text after the last occurrence of `c` in `l`; the whole of `l` when
`c` does not occur.  This is the spec's wording of local-name extraction. -/
def afterLastOcc (c : Char) : List Char → List Char
  | [] => []
  | x :: xs => if c ∈ xs then afterLastOcc c xs else if x = c then xs else x :: xs

/-- Spec wording of the local-name rule: text after the last `#` when `#`
occurs, else text after the last `/` when `/` occurs, else the URI itself. -/
def localNameSpec (uri : List Char) : List Char :=
  if '#' ∈ uri then afterLastOcc '#' uri
  else if '/' ∈ uri then afterLastOcc '/' uri
  else uri

/-! ## Result projector (`graph.py` lines 211-272) -/
/-- One SPARQL binding row as consumed by `_process_graph_results`: each
variable is either bound to a string value or absent. -/
structure GBinding where
  s : Option (List Char) := none
  p : Option (List Char) := none
  o : Option (List Char) := none
  sLabel : Option (List Char) := none
  oLabel : Option (List Char) := none
  sType : Option (List Char) := none
  oType : Option (List Char) := none
deriving DecidableEq

/-- `GraphNode` (models/common.py): id, label, type and a property bag. -/
structure GraphNode where
  id : List Char
  label : List Char
  type : List Char
  properties : List (List Char × List Char)
deriving DecidableEq

/-- `GraphEdge` (models/common.py): source, target, relationship, properties. -/
structure GraphEdge where
  source : List Char
  target : List Char
  relationship : List Char
  properties : List (List Char × List Char)
deriving DecidableEq

/-- Python dict assignment `d[k] = v` on a property bag kept in insertion
order: overwrite in place when the key exists, append otherwise. -/
def setProp (props : List (List Char × List Char)) (k v : List Char) :
    List (List Char × List Char) :=
  if k ∈ props.map Prod.fst then
    props.map fun kv => if kv.1 = k then (k, v) else kv
  else props ++ [(k, v)]

/-- Python dict read `d[k]`: the first value stored under `k`. -/
def lookupVal {β : Type} : List (List Char × β) → List Char → Option β
  | [], _ => none
  | kv :: rest, k => if kv.1 = k then some kv.2 else lookupVal rest k

/-- The node store `nodes_dict`: an insertion-ordered association list from
URI to node, as a Python dict preserves insertion order. -/
abbrev NodeMap : Type := List (List Char × GraphNode)

/-- `nodes_dict[subject_uri].properties[prop_name] = object_uri`: update the
property bag of every entry stored under `k`. -/
def updateNodeProp (m : NodeMap) (k pk pv : List Char) : NodeMap :=
  m.map fun kv =>
    if kv.1 = k then (kv.1, { kv.2 with properties := setProp kv.2.properties pk pv })
    else kv

/-- The subject block of the loop body (graph.py lines 217-231): create the
subject node on first sight of a non-empty subject URI. -/
def subjectNodeStep (nodes : NodeMap) (b : GBinding) : NodeMap :=
  let subjectUri := b.s.getD []
  let subjectLabel := b.sLabel.getD (extractLabelFromUri subjectUri)
  let subjectType := b.sType.getD (strL "Unknown")
  if subjectUri ≠ [] ∧ subjectUri ∉ nodes.map Prod.fst then
    nodes ++ [(subjectUri,
      { id := subjectUri, label := subjectLabel,
        type := extractClassName subjectType,
        properties := [(strL "uri", subjectUri), (strL "full_type", subjectType)] })]
  else nodes

/-- The object block of the loop body (graph.py lines 233-248): create the
object node only when its value starts with `http`. -/
def objectNodeStep (nodes1 : NodeMap) (b : GBinding) : NodeMap :=
  let objectUri := b.o.getD []
  let objectLabel := b.oLabel.getD (extractLabelFromUri objectUri)
  let objectType := b.oType.getD (strL "Unknown")
  if pyStarts objectUri (strL "http") = true ∧ objectUri ∉ nodes1.map Prod.fst then
    nodes1 ++ [(objectUri,
      { id := objectUri, label := objectLabel,
        type := extractClassName objectType,
        properties := [(strL "uri", objectUri), (strL "full_type", objectType)] })]
  else nodes1

/-- One iteration of the `for result in results` loop of
`_process_graph_results` (graph.py lines 216-270): subject block, object
block, then either an edge (URI object) or a property fold (literal
object). -/
def processRow (acc : NodeMap × List GraphEdge) (b : GBinding) :
    NodeMap × List GraphEdge :=
  let nodes2 := objectNodeStep (subjectNodeStep acc.1 b) b
  let subjectUri := b.s.getD []
  let objectUri := b.o.getD []
  let predicateUri := b.p.getD []
  let relationshipName := extractRelationshipName predicateUri
  if subjectUri ≠ [] ∧ pyStarts objectUri (strL "http") = true then
    (nodes2, acc.2 ++ [{ source := subjectUri, target := objectUri,
                         relationship := relationshipName,
                         properties := [(strL "predicate_uri", predicateUri)] }])
  else if subjectUri ≠ [] ∧ ¬ pyStarts objectUri (strL "http") = true then
    if subjectUri ∈ nodes2.map Prod.fst then
      (updateNodeProp nodes2 subjectUri relationshipName objectUri, acc.2)
    else (nodes2, acc.2)
  else (nodes2, acc.2)

/-- `_process_graph_results`: fold the rows, then return the node values in
insertion order together with the edge list. -/
def processGraphResults (results : List GBinding) :
    List GraphNode × List GraphEdge :=
  let st := results.foldl processRow ([], [])
  (st.1.map Prod.snd, st.2)

/-- The property stored under `pk` on the node stored under `k`. -/
def nodeProp (m : NodeMap) (k pk : List Char) : Option (List Char) :=
  match lookupVal m k with
  | none => none
  | some n => lookupVal n.properties pk

/-! ## Analytics calculator (`graph.py` lines 274-313)

Python `float` arithmetic is embedded over `ℚ`; `round(x, p)` is Python's
round-half-to-even at `p` decimal digits, made exact over `ℚ`. -/
/-- Python `round(x, p)`: round half to even at `p` decimal digits. -/
def pyRound (x : ℚ) (p : ℕ) : ℚ :=
  let m : ℚ := (10 : ℚ) ^ p
  let y := x * m
  let f : ℤ := ⌊y⌋
  let r := y - (f : ℚ)
  let n : ℤ :=
    if 1 / 2 < r then f + 1
    else if r < 1 / 2 then f
    else if f % 2 = 0 then f else f + 1
  (n : ℚ) / m

/-- `GraphAnalytics` (models/common.py), histograms kept in insertion order. -/
structure GraphAnalytics where
  total_nodes : ℕ
  total_edges : ℕ
  node_types : List (List Char × ℕ)
  relationship_types : List (List Char × ℕ)
  avg_degree : ℚ
  max_degree : ℕ
  connected_components : ℕ
  density : ℚ
deriving DecidableEq

/-- Python `d[k] = d.get(k, 0) + 1` on an insertion-ordered counter dict. -/
def bumpCount (m : List (List Char × ℕ)) (k : List Char) : List (List Char × ℕ) :=
  if k ∈ m.map Prod.fst then
    m.map fun kv => if kv.1 = k then (kv.1, kv.2 + 1) else kv
  else m ++ [(k, 1)]

/-- `_calculate_graph_analytics`: tallies, degree statistics and density. -/
def calculateGraphAnalytics (nodes : List GraphNode) (edges : List GraphEdge) :
    GraphAnalytics :=
  let total_nodes := nodes.length
  let total_edges := edges.length
  let node_types := nodes.foldl (fun m n => bumpCount m n.type) []
  let relationship_types := edges.foldl (fun m e => bumpCount m e.relationship) []
  let degree_count := edges.foldl (fun m e => bumpCount (bumpCount m e.source) e.target) []
  let avg_degree : ℚ :=
    if degree_count ≠ [] then
      ((degree_count.map Prod.snd).sum : ℚ) / (degree_count.length : ℚ)
    else 0
  let max_degree : ℕ := (degree_count.map Prod.snd).foldl Nat.max 0
  let max_possible_edges : ℚ :=
    if 1 < total_nodes then (total_nodes : ℚ) * ((total_nodes : ℚ) - 1) / 2 else 1
  let density : ℚ :=
    if 0 < max_possible_edges then (total_edges : ℚ) / max_possible_edges else 0
  { total_nodes := total_nodes, total_edges := total_edges,
    node_types := node_types, relationship_types := relationship_types,
    avg_degree := pyRound avg_degree 2, max_degree := max_degree,
    connected_components := 1, density := pyRound density 4 }

/-! ## Relevance scorer (`search.py` lines 347-374) -/
/-- One search binding row as read by `_calculate_relevance`. -/
structure SBinding where
  fileName : Option (List Char) := none
  title : Option (List Char) := none
  description : Option (List Char) := none
  tag : Option (List Char) := none
deriving DecidableEq

/-- `_calculate_relevance`: additive scoring over ℚ — filename substring
0.4 with 0.1 prefix bonus, title 0.3, description 0.2, tag 0.1, capped at 1. -/
def calculateRelevance (result : SBinding) (queryText : List Char) : ℚ :=
  let queryLower := pyLower queryText
  let fileName := pyLower (result.fileName.getD [])
  let score1 : ℚ :=
    if pyIn queryLower fileName = true then
      (0 : ℚ) + 0.4 + (if pyStarts fileName queryLower = true then 0.1 else 0)
    else 0
  let title := result.title.getD []
  let score2 :=
    if title ≠ [] ∧ pyIn queryLower (pyLower title) = true then score1 + 0.3 else score1
  let description := result.description.getD []
  let score3 :=
    if description ≠ [] ∧ pyIn queryLower (pyLower description) = true then score2 + 0.2
    else score2
  let tag := result.tag.getD []
  let score4 :=
    if tag ≠ [] ∧ pyIn queryLower (pyLower tag) = true then score3 + 0.1 else score3
  min score4 1

/-! ## Unified search query (`search.py` lines 21-48) -/
/-- The `search_type` literal of `UnifiedSearchQuery`. -/
inductive SearchType
  | semantic
  | textual
  | hybrid
deriving DecidableEq

/-- A Python `datetime.date` value (year, month, day); a date object is
always truthy. -/
structure PyDate where
  year : ℕ
  month : ℕ
  day : ℕ
deriving DecidableEq

/-- `UnifiedSearchQuery` (search.py): query text, basic options and the
optional advanced filter fields. -/
structure UnifiedSearchQuery where
  query : String := ""
  search_type : SearchType := .hybrid
  limit : ℕ := 20
  offset : ℕ := 0
  file_types : Option (List String) := none
  wdo_classes : Option (List String) := none
  tags : Option (List String) := none
  author : Option String := none
  date_from : Option PyDate := none
  date_to : Option PyDate := none
  min_file_size : Option ℕ := none
  max_file_size : Option ℕ := none
  has_content : Option Bool := none
deriving DecidableEq

/-- Python truthiness of an optional list: `None` and `[]` are falsy. -/
def optListTruthy : Option (List String) → Bool
  | none => false
  | some l => !l.isEmpty

/-- Python truthiness of an optional string: `None` and `""` are falsy. -/
def optStrTruthy : Option String → Bool
  | none => false
  | some s => !s.isEmpty

/-- Python truthiness of an optional non-negative int: `None` and `0` are
falsy. -/
def optNatTruthy : Option ℕ → Bool
  | none => false
  | some n => n != 0

/-- Python truthiness of an optional date: any date object is truthy. -/
def optDateTruthy : Option PyDate → Bool
  | none => false
  | some _ => true

/-- `UnifiedSearchQuery.has_advanced_filters`: Python `any([...])` over the
truthiness of the filter fields, with `has_content` tested via
`is not None`. -/
def has_advanced_filters (q : UnifiedSearchQuery) : Bool :=
  optListTruthy q.file_types || optListTruthy q.wdo_classes || optListTruthy q.tags ||
  optStrTruthy q.author || optDateTruthy q.date_from || optDateTruthy q.date_to ||
  optNatTruthy q.min_file_size || optNatTruthy q.max_file_size || q.has_content.isSome

/-- The claim's reading of `has_advanced_filters`: at least one optional
filter field is non-null. -/
def someFilterNonNull (q : UnifiedSearchQuery) : Prop :=
  q.file_types ≠ none ∨ q.wdo_classes ≠ none ∨ q.tags ≠ none ∨ q.author ≠ none ∨
  q.date_from ≠ none ∨ q.date_to ≠ none ∨ q.min_file_size ≠ none ∨
  q.max_file_size ≠ none ∨ q.has_content ≠ none

/-! ## Graph query builders (`graph.py` lines 20-209) -/
/-- The `query_type` literal of `GraphQuery`. -/
inductive GraphQueryType
  | neighborhood
  | path
  | cluster
  | full
deriving DecidableEq

/-- `GraphQuery` (models/common.py lines 121-131). -/
structure GraphQuery where
  query_type : GraphQueryType := .neighborhood
  center_entity : Option String := none
  source_entity : Option String := none
  target_entity : Option String := none
  depth : ℕ := 2
  relationship_filters : Option (List String) := none
  node_type_filters : Option (List String) := none
  include_literals : Bool := false
  max_nodes : ℕ := 100
deriving DecidableEq

/-- `KnowledgeGraphService.WDO_NS`. -/
def WDO_NS : String := "http://purl.example.org/web_dev_km_bfo#"

/-- `KnowledgeGraphService.SBEKMS_NS`. -/
def SBEKMS_NS : String := "http://sbekms.example.org/instances/"

/-- `_build_neighborhood_query`. -/
def buildNeighborhoodQuery (q : GraphQuery) : String :=
  let centerFilter :=
    if optStrTruthy q.center_entity then
      "FILTER(?s = <" ++ q.center_entity.getD "" ++ "> || ?o = <" ++
        q.center_entity.getD "" ++ ">)"
    else ""
  "\n        PREFIX wdo: <" ++ WDO_NS ++ ">\n" ++
  "        PREFIX sbekms: <" ++ SBEKMS_NS ++ ">\n" ++
  "        PREFIX rdfs: <http://www.w3.org/2000/01/rdf-schema#>\n" ++
  "        PREFIX rdf: <http://www.w3.org/1999/02/22-rdf-syntax-ns#>\n" ++
  "        PREFIX dcterms: <http://purl.org/dc/terms/>\n" ++
  "        \n" ++
  "        SELECT DISTINCT ?s ?p ?o ?sLabel ?oLabel ?sType ?oType\n" ++
  "        WHERE \x7b\n" ++
  "            ?s ?p ?o .\n" ++
  "            " ++ centerFilter ++ "\n" ++
  "            \n" ++
  "            # Get labels\n" ++
  "            OPTIONAL \x7b ?s rdfs:label ?sLabel \x7d\n" ++
  "            OPTIONAL \x7b ?o rdfs:label ?oLabel \x7d\n" ++
  "            \n" ++
  "            # Get types\n" ++
  "            OPTIONAL \x7b ?s rdf:type ?sType \x7d\n" ++
  "            OPTIONAL \x7b ?o rdf:type ?oType \x7d\n" ++
  "            \n" ++
  "            # Filter out technical predicates if requested\n" ++
  "            FILTER(?p != rdf:type || ?p = rdf:type)\n" ++
  "        \x7d\n" ++
  "        LIMIT " ++ toString (q.max_nodes * 2) ++ "\n" ++
  "        "

/-- Body of the path query emitted by `_build_path_query` once both
endpoints are known to be present. -/
def pathQueryText (s t : String) (maxNodes : ℕ) : String :=
  "\n        PREFIX wdo: <" ++ WDO_NS ++ ">\n" ++
  "        PREFIX sbekms: <" ++ SBEKMS_NS ++ ">\n" ++
  "        PREFIX rdfs: <http://www.w3.org/2000/01/rdf-schema#>\n" ++
  "        PREFIX rdf: <http://www.w3.org/1999/02/22-rdf-syntax-ns#>\n" ++
  "        \n" ++
  "        SELECT DISTINCT ?s ?p ?o ?sLabel ?oLabel ?sType ?oType\n" ++
  "        WHERE \x7b\n" ++
  "            # Find all connections involving either source or target entity\n" ++
  "            \x7b\n" ++
  "                # Direct connection from source to target\n" ++
  "                <" ++ s ++ "> ?p <" ++ t ++ "> .\n" ++
  "                BIND(<" ++ s ++ "> AS ?s)\n" ++
  "                BIND(<" ++ t ++ "> AS ?o)\n" ++
  "            \x7d\n" ++
  "            UNION\n" ++
  "            \x7b\n" ++
  "                # Direct connection from target to source  \n" ++
  "                <" ++ t ++ "> ?p <" ++ s ++ "> .\n" ++
  "                BIND(<" ++ t ++ "> AS ?s)\n" ++
  "                BIND(<" ++ s ++ "> AS ?o)\n" ++
  "            \x7d\n" ++
  "            UNION\n" ++
  "            \x7b\n" ++
  "                # Connections through intermediate nodes\n" ++
  "                ?s ?p ?o .\n" ++
  "                \x7b\n" ++
  "                    <" ++ s ++ "> ?p1 ?intermediate .\n" ++
  "                    ?intermediate ?p2 <" ++ t ++ "> .\n" ++
  "                    FILTER(?s = <" ++ s ++ "> || ?s = ?intermediate || ?s = <" ++ t ++ "> ||\n" ++
  "                           ?o = <" ++ s ++ "> || ?o = ?intermediate || ?o = <" ++ t ++ ">)\n" ++
  "                \x7d\n" ++
  "            \x7d\n" ++
  "            \n" ++
  "            OPTIONAL \x7b ?s rdfs:label ?sLabel \x7d\n" ++
  "            OPTIONAL \x7b ?o rdfs:label ?oLabel \x7d\n" ++
  "            OPTIONAL \x7b ?s rdf:type ?sType \x7d\n" ++
  "            OPTIONAL \x7b ?o rdf:type ?oType \x7d\n" ++
  "        \x7d\n" ++
  "        LIMIT " ++ toString maxNodes ++ "\n" ++
  "        "

/-- `_build_path_query`: raises `ValueError` when either endpoint is falsy
(`None` or empty), modelled as `Except.error`. -/
def buildPathQuery (q : GraphQuery) : Except String String :=
  if !optStrTruthy q.source_entity || !optStrTruthy q.target_entity then
    .error "Path queries require both source_entity and target_entity"
  else
    .ok (pathQueryText (q.source_entity.getD "") (q.target_entity.getD "") q.max_nodes)

/-- `_build_cluster_query`. -/
def buildClusterQuery (q : GraphQuery) : String :=
  "\n        PREFIX wdo: <" ++ WDO_NS ++ ">\n" ++
  "        PREFIX sbekms: <" ++ SBEKMS_NS ++ ">\n" ++
  "        PREFIX rdfs: <http://www.w3.org/2000/01/rdf-schema#>\n" ++
  "        PREFIX rdf: <http://www.w3.org/1999/02/22-rdf-syntax-ns#>\n" ++
  "        PREFIX dcterms: <http://purl.org/dc/terms/>\n" ++
  "        \n" ++
  "        SELECT DISTINCT ?s ?p ?o ?sLabel ?oLabel ?sType ?oType\n" ++
  "        WHERE \x7b\n" ++
  "            ?s ?p ?o .\n" ++
  "            ?s rdf:type ?sType .\n" ++
  "            ?o rdf:type ?oType .\n" ++
  "            \n" ++
  "            # Focus on same-type clustering\n" ++
  "            FILTER(?sType = ?oType)\n" ++
  "            \n" ++
  "            OPTIONAL \x7b ?s rdfs:label ?sLabel \x7d\n" ++
  "            OPTIONAL \x7b ?o rdfs:label ?oLabel \x7d\n" ++
  "        \x7d\n" ++
  "        LIMIT " ++ toString q.max_nodes ++ "\n" ++
  "        "

/-- `_build_full_graph_query`. -/
def buildFullGraphQuery (q : GraphQuery) : String :=
  "\n        PREFIX wdo: <" ++ WDO_NS ++ ">\n" ++
  "        PREFIX sbekms: <" ++ SBEKMS_NS ++ ">\n" ++
  "        PREFIX rdfs: <http://www.w3.org/2000/01/rdf-schema#>\n" ++
  "        PREFIX rdf: <http://www.w3.org/1999/02/22-rdf-syntax-ns#>\n" ++
  "        PREFIX dcterms: <http://purl.org/dc/terms/>\n" ++
  "        \n" ++
  "        SELECT DISTINCT ?s ?p ?o ?sLabel ?oLabel ?sType ?oType\n" ++
  "        WHERE \x7b\n" ++
  "            ?s ?p ?o .\n" ++
  "            \n" ++
  "            # Focus on core entities\n" ++
  "            ?s rdf:type wdo:DigitalInformationCarrier .\n" ++
  "            \n" ++
  "            OPTIONAL \x7b ?s rdfs:label ?sLabel \x7d\n" ++
  "            OPTIONAL \x7b ?o rdfs:label ?oLabel \x7d\n" ++
  "            OPTIONAL \x7b ?s rdf:type ?sType \x7d\n" ++
  "            OPTIONAL \x7b ?o rdf:type ?oType \x7d\n" ++
  "            \n" ++
  "            # Exclude some technical predicates for cleaner visualization\n" ++
  "            FILTER(?p != <http://www.w3.org/1999/02/22-rdf-syntax-ns#type>)\n" ++
  "        \x7d\n" ++
  "        LIMIT " ++ toString q.max_nodes ++ "\n" ++
  "        "

/-- The query-building stage of `get_knowledge_graph` (graph.py lines
33-42): dispatch on `query_type`; a `ValueError` from the path builder
propagates as an error. -/
def buildGraphSparql (q : GraphQuery) : Except String String :=
  match q.query_type with
  | .neighborhood => .ok (buildNeighborhoodQuery q)
  | .path => buildPathQuery q
  | .cluster => .ok (buildClusterQuery q)
  | .full => .ok (buildFullGraphQuery q)

/-- Control flow of `get_knowledge_graph` around the gateway (graph.py
lines 33-46): the triple store's `query` method is called exactly once,
and only after query building succeeded — an exception raised by a builder
propagates out of the `try` body before the `await self.triplestore.query`
line is reached. -/
def gatewayCalls (q : GraphQuery) : ℕ :=
  match buildGraphSparql q with
  | .error _ => 0
  | .ok _ => 1

/-! ## Search query builders (`search.py` lines 112-300) -/
/-- Python `sep.join(...)` on a list of strings. -/
def joinSep (sep : String) : List String → String
  | [] => ""
  | [x] => x
  | x :: y :: rest => x ++ sep ++ joinSep sep (y :: rest)

/-- Python `str(n)` zero-padded to two digits, as `date.__str__` emits. -/
def pad2 (n : ℕ) : String := if n < 10 then "0" ++ toString n else toString n

/-- Python `str(n)` zero-padded to four digits. -/
def pad4 (n : ℕ) : String :=
  if n < 10 then "000" ++ toString n
  else if n < 100 then "00" ++ toString n
  else if n < 1000 then "0" ++ toString n
  else toString n

/-- Python `str(date)`: ISO `YYYY-MM-DD`. -/
def pyDateStr (d : PyDate) : String :=
  pad4 d.year ++ "-" ++ pad2 d.month ++ "-" ++ pad2 d.day

/-- The `ORDER BY` ranking block of `_build_semantic_search_query`
(search.py lines 155-160): weights 4/3/2/1 on filename, title, description
and tag, each optional field guarded by `BOUND`. -/
def semanticRankingText (qt : String) : String :=
  "        ORDER BY DESC(\n" ++
  "            (IF(CONTAINS(LCASE(?fileName), LCASE(\"" ++ qt ++ "\")), 4, 0)) +\n" ++
  "            (IF(BOUND(?title) && CONTAINS(LCASE(STR(?title)), LCASE(\"" ++ qt ++
    "\")), 3, 0)) +\n" ++
  "            (IF(BOUND(?description) && CONTAINS(LCASE(STR(?description)), LCASE(\"" ++
    qt ++ "\")), 2, 0)) +\n" ++
  "            (IF(BOUND(?tag) && CONTAINS(LCASE(STR(?tag)), LCASE(\"" ++ qt ++
    "\")), 1, 0))\n" ++
  "        ) ?fileName\n"

/-- The `ORDER BY` ranking block emitted by `_build_advanced_search_query`
for a semantic query with text (search.py lines 286-290). -/
def advancedSemanticRankingText (qt : String) : String :=
  "        ORDER BY DESC(\n" ++
  "            (IF(CONTAINS(LCASE(?fileName), LCASE(\"" ++ qt ++ "\")), 4, 0)) +\n" ++
  "            (IF(CONTAINS(LCASE(STR(?title)), LCASE(\"" ++ qt ++ "\")), 3, 0)) +\n" ++
  "            (IF(CONTAINS(LCASE(STR(?description)), LCASE(\"" ++ qt ++
    "\")), 2, 0))\n" ++
  "        ) ?fileName\n"

/-- The SELECT/WHERE body shared by the two basic search builders, up to the
text `FILTER` (search.py lines 123-145 and 166-188). -/
def basicSearchBodyText : String :=
  "\n        PREFIX wdo: <" ++ WDO_NS ++ ">\n" ++
  "        PREFIX sbekms: <" ++ SBEKMS_NS ++ ">\n" ++
  "        PREFIX rdfs: <http://www.w3.org/2000/01/rdf-schema#>\n" ++
  "        PREFIX dcterms: <http://purl.org/dc/terms/>\n" ++
  "        PREFIX rdf: <http://www.w3.org/1999/02/22-rdf-syntax-ns#>\n" ++
  "        PREFIX xsd: <http://www.w3.org/2001/XMLSchema#>\n" ++
  "        \n" ++
  "        SELECT DISTINCT ?asset ?fileName ?title ?description ?fileSize ?mimeType ?author ?created ?type ?tag\n" ++
  "        WHERE \x7b\n" ++
  "            ?asset a wdo:DigitalInformationCarrier .\n" ++
  "            ?asset rdfs:label ?fileName .\n" ++
  "            \n" ++
  "            OPTIONAL \x7b ?asset rdf:type ?type \x7d\n" ++
  "            OPTIONAL \x7b ?asset dcterms:title ?title \x7d\n" ++
  "            OPTIONAL \x7b ?asset dcterms:description ?description \x7d\n" ++
  "            OPTIONAL \x7b ?asset wdo:hasFileSize ?fileSize \x7d\n" ++
  "            OPTIONAL \x7b ?asset wdo:hasMimeType ?mimeType \x7d\n" ++
  "            OPTIONAL \x7b ?asset dcterms:creator ?author \x7d\n" ++
  "            OPTIONAL \x7b ?asset dcterms:created ?created \x7d\n" ++
  "            OPTIONAL \x7b ?asset wdo:hasTag ?tagURI . ?tagURI rdfs:label ?tag \x7d\n" ++
  "            \n"

/-- `_build_semantic_search_query` (search.py lines 121-162). -/
def buildSemanticSearchQuery (queryText : String) (limit offset : ℕ) : String :=
  basicSearchBodyText ++
  "            # More flexible text matching across multiple fields\n" ++
  "            FILTER (\n" ++
  "                CONTAINS(LCASE(?fileName), LCASE(\"" ++ queryText ++ "\")) ||\n" ++
  "                (BOUND(?title) && CONTAINS(LCASE(STR(?title)), LCASE(\"" ++ queryText ++
    "\"))) ||\n" ++
  "                (BOUND(?description) && CONTAINS(LCASE(STR(?description)), LCASE(\"" ++
    queryText ++ "\"))) ||\n" ++
  "                (BOUND(?tag) && CONTAINS(LCASE(STR(?tag)), LCASE(\"" ++ queryText ++
    "\"))) ||\n" ++
  "                (BOUND(?type) && CONTAINS(LCASE(STR(?type)), LCASE(\"" ++ queryText ++
    "\"))) ||\n" ++
  "                (BOUND(?mimeType) && CONTAINS(LCASE(STR(?mimeType)), LCASE(\"" ++
    queryText ++ "\")))\n" ++
  "            )\n" ++
  "        \x7d\n" ++
  semanticRankingText queryText ++
  "        LIMIT " ++ toString limit ++ " OFFSET " ++ toString offset ++ "\n" ++
  "        "

/-- `_build_textual_search_query` (search.py lines 164-197). -/
def buildTextualSearchQuery (queryText : String) (limit offset : ℕ) : String :=
  basicSearchBodyText ++
  "            # Simple text matching with proper bounds checking\n" ++
  "            FILTER (\n" ++
  "                CONTAINS(LCASE(?fileName), LCASE(\"" ++ queryText ++ "\")) ||\n" ++
  "                (BOUND(?title) && CONTAINS(LCASE(STR(?title)), LCASE(\"" ++ queryText ++
    "\"))) ||\n" ++
  "                (BOUND(?description) && CONTAINS(LCASE(STR(?description)), LCASE(\"" ++
    queryText ++ "\")))\n" ++
  "            )\n" ++
  "        \x7d\n" ++
  "        ORDER BY ?fileName\n" ++
  "        LIMIT " ++ toString limit ++ " OFFSET " ++ toString offset ++ "\n" ++
  "        "

/-- `_build_basic_search_query` (search.py lines 112-119): hybrid falls
through to the semantic builder. -/
def buildBasicSearchQuery (q : UnifiedSearchQuery) : String :=
  match q.search_type with
  | .semantic => buildSemanticSearchQuery q.query q.limit q.offset
  | .textual => buildTextualSearchQuery q.query q.limit q.offset
  | .hybrid => buildSemanticSearchQuery q.query q.limit q.offset

/-- The filter list assembled by `_build_advanced_search_query`
(search.py lines 224-276), in source order. -/
def advancedFilters (q : UnifiedSearchQuery) : List String :=
  (if !q.query.isEmpty then
    (if q.search_type = .semantic then
      ["\n                    (CONTAINS(LCASE(?fileName), LCASE(\"" ++ q.query ++
       "\")) ||\n                     CONTAINS(LCASE(STR(?title)), LCASE(\"" ++ q.query ++
       "\")) ||\n                     CONTAINS(LCASE(STR(?description)), LCASE(\"" ++
       q.query ++
       "\")) ||\n                     CONTAINS(LCASE(STR(?tag)), LCASE(\"" ++ q.query ++
       "\")))\n                "]
    else
      ["\n                    (CONTAINS(LCASE(?fileName), LCASE(\"" ++ q.query ++
       "\")) ||\n                     CONTAINS(LCASE(STR(?title)), LCASE(\"" ++ q.query ++
       "\")) ||\n                     CONTAINS(LCASE(STR(?description)), LCASE(\"" ++
       q.query ++ "\")))\n                "])
  else []) ++
  (if optListTruthy q.wdo_classes then
    ["(" ++ joinSep " || " ((q.wdo_classes.getD []).map
        (fun cls => "?type = wdo:" ++ cls)) ++ ")"]
  else []) ++
  (if optListTruthy q.file_types then
    ["(" ++ joinSep " || " ((q.file_types.getD []).map
        (fun ft => "REGEX(?fileName, \"\\." ++ ft ++ "$\", \"i\")")) ++ ")"]
  else []) ++
  (if optStrTruthy q.author then
    ["CONTAINS(LCASE(STR(?author)), LCASE(\"" ++ q.author.getD "" ++ "\"))"]
  else []) ++
  (if optNatTruthy q.min_file_size then
    ["?fileSize >= " ++ toString (q.min_file_size.getD 0)]
  else []) ++
  (if optNatTruthy q.max_file_size then
    ["?fileSize <= " ++ toString (q.max_file_size.getD 0)]
  else []) ++
  (match q.date_from with
   | some d => ["?created >= \"" ++ pyDateStr d ++ "T00:00:00\"^^xsd:dateTime"]
   | none => []) ++
  (match q.date_to with
   | some d => ["?created <= \"" ++ pyDateStr d ++ "T23:59:59\"^^xsd:dateTime"]
   | none => []) ++
  (if optListTruthy q.tags then
    ["(" ++ joinSep " || " ((q.tags.getD []).map
        (fun tg => "CONTAINS(LCASE(STR(?tag)), LCASE(\"" ++ tg ++ "\"))")) ++ ")"]
  else [])

/-- `_build_advanced_search_query` (search.py lines 199-300). -/
def buildAdvancedSearchQuery (q : UnifiedSearchQuery) : String :=
  let base :=
    "\n        PREFIX wdo: <" ++ WDO_NS ++ ">\n" ++
    "        PREFIX sbekms: <" ++ SBEKMS_NS ++ ">\n" ++
    "        PREFIX rdfs: <http://www.w3.org/2000/01/rdf-schema#>\n" ++
    "        PREFIX dcterms: <http://purl.org/dc/terms/>\n" ++
    "        PREFIX rdf: <http://www.w3.org/1999/02/22-rdf-syntax-ns#>\n" ++
    "        PREFIX xsd: <http://www.w3.org/2001/XMLSchema#>\n" ++
    "        \n" ++
    "        SELECT DISTINCT ?asset ?fileName ?title ?description ?fileSize ?mimeType ?author ?created ?type ?tag\n" ++
    "        WHERE \x7b\n" ++
    "            ?asset a wdo:DigitalInformationCarrier .\n" ++
    "            ?asset rdfs:label ?fileName .\n" ++
    "            ?asset rdf:type ?type .\n" ++
    "            \n" ++
    "            OPTIONAL \x7b ?asset dcterms:title ?title \x7d\n" ++
    "            OPTIONAL \x7b ?asset dcterms:description ?description \x7d\n" ++
    "            OPTIONAL \x7b ?asset wdo:hasFileSize ?fileSize \x7d\n" ++
    "            OPTIONAL \x7b ?asset wdo:hasMimeType ?mimeType \x7d\n" ++
    "            OPTIONAL \x7b ?asset dcterms:creator ?author \x7d\n" ++
    "            OPTIONAL \x7b ?asset dcterms:created ?created \x7d\n" ++
    "            OPTIONAL \x7b ?asset wdo:hasTag ?tagURI . ?tagURI rdfs:label ?tag \x7d\n" ++
    "        "
  let filters := advancedFilters q
  let base1 :=
    if filters ≠ [] then
      base ++ "\n            FILTER (" ++ joinSep " && " filters ++ ")"
    else base
  if !q.query.isEmpty ∧ q.search_type = .semantic then
    base1 ++ "\n        \x7d\n" ++ advancedSemanticRankingText q.query ++
    "        LIMIT " ++ toString q.limit ++ " OFFSET " ++ toString q.offset ++ "\n" ++
    "        "
  else
    base1 ++ "\n        \x7d\n" ++
    "        ORDER BY ?fileName\n" ++
    "        LIMIT " ++ toString q.limit ++ " OFFSET " ++ toString q.offset ++ "\n" ++
    "        "

/-- One ranking term of an `ORDER BY DESC(...)` block: field variable,
whether it is guarded with `BOUND`, and its weight. -/
structure RankTerm where
  field : String
  guarded : Bool
  weight : ℕ

/-- Render one ranking term the way both builders spell it. -/
def rankTermText (qt : String) (t : RankTerm) : String :=
  "            (IF(" ++
  (if t.guarded then "BOUND(?" ++ t.field ++ ") && " else "") ++
  "CONTAINS(LCASE(" ++
  (if t.field = "fileName" then "?fileName" else "STR(?" ++ t.field ++ ")") ++
  "), LCASE(\"" ++ qt ++ "\")), " ++ toString t.weight ++ ", 0))"

/-- Render a full weighted `ORDER BY` block from its term list. -/
def rankingText (qt : String) (ts : List RankTerm) : String :=
  "        ORDER BY DESC(\n" ++ joinSep " +\n" (ts.map (rankTermText qt)) ++
  "\n        ) ?fileName\n"

/-- Search result row with filename `demo.py` and nothing else bound. -/
def demoRow1 : SBinding := { fileName := some (strL "demo.py") }

/-- The same row with title `Demo Project` added. -/
def demoRow2 : SBinding :=
  { fileName := some (strL "demo.py"), title := some (strL "Demo Project") }

/-- Binding row producing one edge, used to witness C10. -/
def edgeRowW : GBinding :=
  { s := some (strL "http://x/a"), p := some (strL "http://x/p"),
    o := some (strL "http://x/b") }

/-- The edge the projector emits for `edgeRowW`. -/
def edgeW : GraphEdge :=
  { source := strL "http://x/a", target := strL "http://x/b",
    relationship := strL "p",
    properties := [(strL "predicate_uri", strL "http://x/p")] }

/-- A character a URI scheme may contain after its first letter. -/
def schemeChar (c : Char) : Bool := c.isAlphanum || c = '+' || c = '-' || c = '.'

/-- Scan for the `:` that terminates a URI scheme. -/
def hasSchemeColon : List Char → Bool
  | [] => false
  | c :: rest => if c = ':' then true else schemeChar c && hasSchemeColon rest

/-- The claim's "URI scheme pattern": an RFC 3986 scheme (a letter followed
by letters, digits, `+`, `-` or `.`) terminated by `:`. -/
def uriSchemeShaped : List Char → Bool
  | [] => false
  | c :: rest => c.isAlpha && hasSchemeColon rest

/-- A row whose object `httpfoo` is a literal by the claim's definition
(no URI scheme) yet starts with `http`. -/
def literalRowX : GBinding :=
  { s := some (strL "http://x/a"), p := some (strL "http://x/#hasNote"),
    o := some (strL "httpfoo") }

/-- The claim's concrete row: subject `http://x/a`, predicate
`http://x/#hasFileSize`, literal object `1024`. -/
def fileSizeRow : GBinding :=
  { s := some (strL "http://x/a"), p := some (strL "http://x/#hasFileSize"),
    o := some (strL "1024") }

/-- A subject URI that ends in `/`, so the derived label is empty. -/
def trailingSlashRow : GBinding :=
  { s := some (strL "http://x/a/"), p := some (strL "http://x/p"),
    o := some (strL "1024") }

/-- A row whose subject URI `root` has no separators. -/
def plainUriRow : GBinding :=
  { s := some (strL "root"), p := some (strL "http://x/p"),
    o := some (strL "1024") }

/-- A row whose subject and object are the same URI: one node, one
self-loop edge. -/
def selfLoopRow : GBinding :=
  { s := some (strL "http://x/a"), p := some (strL "http://x/p"),
    o := some (strL "http://x/a") }

/-- Four distinct nodes, used with `edgesW3` to witness the 0.5 density
example. -/
def nodesW4 : List GraphNode :=
  [{ id := strL "a", label := strL "a", type := strL "Resource", properties := [] },
   { id := strL "b", label := strL "b", type := strL "Resource", properties := [] },
   { id := strL "c", label := strL "c", type := strL "Resource", properties := [] },
   { id := strL "d", label := strL "d", type := strL "Resource", properties := [] }]

/-- Three edges over `nodesW4`. -/
def edgesW3 : List GraphEdge :=
  [{ source := strL "a", target := strL "b", relationship := strL "r", properties := [] },
   { source := strL "b", target := strL "c", relationship := strL "r", properties := [] },
   { source := strL "c", target := strL "d", relationship := strL "r", properties := [] }]

theorem afterLastOcc_of_not_mem {c : Char} {l : List Char} (h : c ∉ l) :
    afterLastOcc c l = l := by
  induction l with
  | nil => rfl
  | cons x xs ih =>
    rw [List.mem_cons, not_or] at h
    rw [afterLastOcc, if_neg (fun hm => h.2 hm), if_neg (fun he => h.1 he.symm)]

theorem splitOnChar_ne_nil (c : Char) (l : List Char) : splitOnChar c l ≠ [] := by
  cases l with
  | nil => simp [splitOnChar]
  | cons x xs =>
    rw [splitOnChar]
    split <;> simp

theorem splitOnChar_of_not_mem {c : Char} {l : List Char} (h : c ∉ l) :
    splitOnChar c l = [l] := by
  induction l with
  | nil => rfl
  | cons x xs ih =>
    rw [List.mem_cons, not_or] at h
    rw [splitOnChar, ih h.2, if_neg (fun he => h.1 he.symm)]
    rfl

theorem two_le_length_splitOnChar {c : Char} {l : List Char} (h : c ∈ l) :
    2 ≤ (splitOnChar c l).length := by
  induction l with
  | nil => cases h
  | cons x xs ih =>
    rw [splitOnChar]
    by_cases hx : x = c
    · rw [if_pos hx]
      have := splitOnChar_ne_nil c xs
      cases hs : splitOnChar c xs with
      | nil => exact absurd hs this
      | cons a t => simp
    · rw [if_neg hx]
      rcases List.mem_cons.1 h with h1 | h2
      · exact absurd h1.symm hx
      · have h2l := ih h2
        cases hs : splitOnChar c xs with
        | nil => exact absurd hs (splitOnChar_ne_nil c xs)
        | cons a t =>
          rw [hs] at h2l
          simp only [List.length_cons] at h2l ⊢
          simpa using h2l

/-- The last piece of a single-character split is exactly the text after the
last occurrence of the separator. -/
theorem getLastD_splitOnChar (c : Char) (l : List Char) :
    (splitOnChar c l).getLastD [] = afterLastOcc c l := by
  induction l with
  | nil => rfl
  | cons x xs ih =>
    rw [splitOnChar, afterLastOcc]
    cases hs : splitOnChar c xs with
    | nil => exact absurd hs (splitOnChar_ne_nil c xs)
    | cons h' t =>
      rw [hs] at ih
      by_cases hx : x = c
      · rw [if_pos hx]
        by_cases hm : c ∈ xs
        · rw [if_pos hm, ← ih, List.getLastD_cons]
        · rw [if_neg hm, hx]
          rw [splitOnChar_of_not_mem hm] at hs
          cases hs
          simp [afterLastOcc_of_not_mem hm, List.getLastD_cons]
      · rw [if_neg hx]
        by_cases hm : c ∈ xs
        · rw [if_pos hm, ← ih]
          have h2 := two_le_length_splitOnChar hm
          rw [hs] at h2
          cases t with
          | nil => simp at h2
          | cons t0 ts => simp [List.getLastD_cons]
        · rw [if_neg hm, if_neg hx]
          rw [splitOnChar_of_not_mem hm] at hs
          cases hs
          rfl

theorem lookupVal_replace (props : List (List Char × List Char)) (k v : List Char)
    (hmem : k ∈ props.map Prod.fst) :
    lookupVal (props.map fun kv => if kv.1 = k then (k, v) else kv) k = some v := by
  induction props with
  | nil => simp at hmem
  | cons kv rest ih =>
    rw [List.map_cons, lookupVal]
    by_cases hk : kv.1 = k
    · rw [if_pos hk]
      simp
    · rw [if_neg hk, if_neg hk]
      apply ih
      rcases List.mem_cons.1 hmem with h1 | h2
      · exact absurd h1.symm hk
      · exact h2

theorem lookupVal_append_single (props : List (List Char × List Char)) (k v : List Char)
    (hmem : k ∉ props.map Prod.fst) :
    lookupVal (props ++ [(k, v)]) k = some v := by
  induction props with
  | nil => simp [lookupVal]
  | cons kv rest ih =>
    simp only [List.map_cons, List.mem_cons, not_or] at hmem
    rw [List.cons_append, lookupVal, if_neg (fun h => hmem.1 h.symm)]
    exact ih hmem.2

theorem lookupVal_setProp (props : List (List Char × List Char)) (k v : List Char) :
    lookupVal (setProp props k v) k = some v := by
  rw [setProp]
  split_ifs with hmem
  · exact lookupVal_replace props k v hmem
  · exact lookupVal_append_single props k v hmem

theorem keys_updateNodeProp (m : NodeMap) (k pk pv : List Char) :
    (updateNodeProp m k pk pv).map Prod.fst = m.map Prod.fst := by
  induction m with
  | nil => rfl
  | cons kv rest ih =>
    rw [updateNodeProp, List.map_cons, List.map_cons, List.map_cons]
    have hfst :
        (if kv.1 = k then
          (kv.1, { kv.2 with properties := setProp kv.2.properties pk pv })
         else kv).1 = kv.1 := by
      split <;> rfl
    rw [hfst]
    exact congrArg (List.cons kv.1) ih

theorem lookupVal_updateNodeProp (m : NodeMap) (k pk pv : List Char) :
    lookupVal (updateNodeProp m k pk pv) k =
      (lookupVal m k).map
        (fun n => { n with properties := setProp n.properties pk pv }) := by
  induction m with
  | nil => rfl
  | cons kv rest ih =>
    rw [updateNodeProp, List.map_cons, lookupVal, lookupVal]
    by_cases hk : kv.1 = k
    · rw [if_pos hk, if_pos hk]
      simp [hk]
    · rw [if_neg hk, if_neg hk, if_neg hk]
      exact ih

theorem lookup_isSome_of_mem_keys {m : NodeMap} {k : List Char}
    (h : k ∈ m.map Prod.fst) : ∃ n, lookupVal m k = some n := by
  induction m with
  | nil => simp at h
  | cons kv rest ih =>
    rw [lookupVal]
    by_cases hk : kv.1 = k
    · exact ⟨kv.2, by rw [if_pos hk]⟩
    · rw [if_neg hk]
      apply ih
      rcases List.mem_cons.1 h with h1 | h2
      · exact absurd h1.symm hk
      · exact h2

theorem idkey_updateNodeProp (m : NodeMap) (k pk pv : List Char)
    (hK : ∀ kv ∈ m, kv.1 = kv.2.id) :
    ∀ kv ∈ updateNodeProp m k pk pv, kv.1 = kv.2.id := by
  intro kv hkv
  rw [updateNodeProp] at hkv
  rcases List.mem_map.1 hkv with ⟨kv', hkv', rfl⟩
  have := hK kv' hkv'
  split <;> simpa using this

theorem idkey_snoc (m : NodeMap) (u : List Char) (n : GraphNode) (hid : n.id = u)
    (hK : ∀ kv ∈ m, kv.1 = kv.2.id) :
    ∀ kv ∈ m ++ [(u, n)], kv.1 = kv.2.id := by
  intro kv hkv
  rcases List.mem_append.1 hkv with h | h
  · exact hK kv h
  · simp only [List.mem_singleton] at h
    subst h
    exact hid.symm

theorem keys_subjectNodeStep (nodes : NodeMap) (b : GBinding) (k : List Char)
    (hk : k ∈ nodes.map Prod.fst) :
    k ∈ (subjectNodeStep nodes b).map Prod.fst := by
  simp only [subjectNodeStep]
  split
  · simp only [List.map_append, List.mem_append]
    exact Or.inl hk
  · exact hk

theorem keys_objectNodeStep (nodes1 : NodeMap) (b : GBinding) (k : List Char)
    (hk : k ∈ nodes1.map Prod.fst) :
    k ∈ (objectNodeStep nodes1 b).map Prod.fst := by
  simp only [objectNodeStep]
  split
  · simp only [List.map_append, List.mem_append]
    exact Or.inl hk
  · exact hk

theorem subject_mem_subjectNodeStep (nodes : NodeMap) (b : GBinding)
    (hs : b.s.getD [] ≠ []) :
    b.s.getD [] ∈ (subjectNodeStep nodes b).map Prod.fst := by
  simp only [subjectNodeStep]
  split
  · simp only [List.map_append, List.mem_append, List.map_cons, List.map_nil,
      List.mem_singleton]
    exact Or.inr trivial
  · rename_i hc
    exact not_not.1 (not_and.1 hc hs)

theorem object_mem_objectNodeStep (nodes1 : NodeMap) (b : GBinding)
    (ho : pyStarts (b.o.getD []) (strL "http") = true) :
    b.o.getD [] ∈ (objectNodeStep nodes1 b).map Prod.fst := by
  simp only [objectNodeStep]
  split
  · simp only [List.map_append, List.mem_append, List.map_cons, List.map_nil,
      List.mem_singleton]
    exact Or.inr trivial
  · rename_i hc
    exact not_not.1 (not_and.1 hc ho)

theorem objectNodeStep_of_not_http (nodes1 : NodeMap) (b : GBinding)
    (ho : ¬ pyStarts (b.o.getD []) (strL "http") = true) :
    objectNodeStep nodes1 b = nodes1 := by
  simp only [objectNodeStep]
  rw [if_neg (fun h => ho h.1)]

theorem keys_subjectNodeStep_cases (nodes : NodeMap) (b : GBinding) (k : List Char)
    (hk : k ∈ (subjectNodeStep nodes b).map Prod.fst) :
    k ∈ nodes.map Prod.fst ∨ k = b.s.getD [] := by
  revert hk
  simp only [subjectNodeStep]
  split
  · simp only [List.map_append, List.mem_append, List.map_cons, List.map_nil,
      List.mem_singleton, List.mem_cons]
    tauto
  · exact Or.inl

theorem idkey_subjectNodeStep (nodes : NodeMap) (b : GBinding)
    (hK : ∀ kv ∈ nodes, kv.1 = kv.2.id) :
    ∀ kv ∈ subjectNodeStep nodes b, kv.1 = kv.2.id := by
  simp only [subjectNodeStep]
  split
  · exact idkey_snoc _ _ _ (by rfl) hK
  · exact hK

theorem idkey_objectNodeStep (nodes1 : NodeMap) (b : GBinding)
    (hK : ∀ kv ∈ nodes1, kv.1 = kv.2.id) :
    ∀ kv ∈ objectNodeStep nodes1 b, kv.1 = kv.2.id := by
  simp only [objectNodeStep]
  split
  · exact idkey_snoc _ _ _ (by rfl) hK
  · exact hK

/-- Every entry of the node store keeps its key equal to its node's id
through one loop iteration. -/
theorem processRow_idkey (nodes : NodeMap) (edges : List GraphEdge) (b : GBinding)
    (hK : ∀ kv ∈ nodes, kv.1 = kv.2.id) :
    ∀ kv ∈ (processRow (nodes, edges) b).1, kv.1 = kv.2.id := by
  have h2 : ∀ kv ∈ objectNodeStep (subjectNodeStep nodes b) b, kv.1 = kv.2.id :=
    idkey_objectNodeStep _ _ (idkey_subjectNodeStep _ _ hK)
  simp only [processRow]
  repeat' split
  all_goals intro kv hkv
  all_goals dsimp only at hkv
  all_goals
    first
      | exact h2 kv hkv
      | exact idkey_updateNodeProp _ _ _ _ h2 kv hkv

/-- One loop iteration only grows the set of stored node keys. -/
theorem processRow_keys_superset (nodes : NodeMap) (edges : List GraphEdge) (b : GBinding)
    (k : List Char) (hk : k ∈ nodes.map Prod.fst) :
    k ∈ (processRow (nodes, edges) b).1.map Prod.fst := by
  have h2 : k ∈ (objectNodeStep (subjectNodeStep nodes b) b).map Prod.fst :=
    keys_objectNodeStep _ _ _ (keys_subjectNodeStep _ _ _ hk)
  simp only [processRow]
  repeat' split
  all_goals dsimp only
  all_goals
    first
      | exact h2
      | (rw [keys_updateNodeProp]; exact h2)

/-- After one loop iteration on a row with a non-empty subject, the subject
URI is a stored node key. -/
theorem processRow_subject_mem (nodes : NodeMap) (edges : List GraphEdge) (b : GBinding)
    (hs : b.s.getD [] ≠ []) :
    b.s.getD [] ∈ (processRow (nodes, edges) b).1.map Prod.fst := by
  have h2 : b.s.getD [] ∈ (objectNodeStep (subjectNodeStep nodes b) b).map Prod.fst :=
    keys_objectNodeStep _ _ _ (subject_mem_subjectNodeStep _ _ hs)
  simp only [processRow]
  repeat' split
  all_goals dsimp only
  all_goals
    first
      | exact h2
      | (rw [keys_updateNodeProp]; exact h2)

/-- After one loop iteration on a row whose object starts with `http`, the
object URI is a stored node key. -/
theorem processRow_object_mem (nodes : NodeMap) (edges : List GraphEdge) (b : GBinding)
    (ho : pyStarts (b.o.getD []) (strL "http") = true) :
    b.o.getD [] ∈ (processRow (nodes, edges) b).1.map Prod.fst := by
  have h2 : b.o.getD [] ∈ (objectNodeStep (subjectNodeStep nodes b) b).map Prod.fst :=
    object_mem_objectNodeStep _ _ ho
  simp only [processRow]
  repeat' split
  all_goals dsimp only
  all_goals
    first
      | exact h2
      | (rw [keys_updateNodeProp]; exact h2)

/-- The edge list after one loop iteration: unchanged, or extended by the
one edge between the row's subject and its `http`-prefixed object. -/
theorem processRow_edges (nodes : NodeMap) (edges : List GraphEdge) (b : GBinding) :
    (processRow (nodes, edges) b).2 = edges ∨
    ((processRow (nodes, edges) b).2 =
       edges ++ [{ source := b.s.getD [], target := b.o.getD [],
                   relationship := extractRelationshipName (b.p.getD []),
                   properties := [(strL "predicate_uri", b.p.getD [])] }] ∧
     b.s.getD [] ≠ [] ∧ pyStarts (b.o.getD []) (strL "http") = true) := by
  simp only [processRow]
  repeat' split
  all_goals
    first
      | (left; rfl)
      | (right
         exact ⟨rfl,
           ‹b.s.getD [] ≠ [] ∧ pyStarts (b.o.getD []) (strL "http") = true›.1,
           ‹b.s.getD [] ≠ [] ∧ pyStarts (b.o.getD []) (strL "http") = true›.2⟩)

/-- `pyRound` leaves values that are exact at `p` decimal digits unchanged. -/
theorem pyRound_eq_self {q : ℚ} {p : ℕ} {z : ℤ} (h : q * 10 ^ p = (z : ℚ)) :
    pyRound q p = q := by
  have h10 : ((10 : ℚ)) ^ p ≠ 0 := by positivity
  simp only [pyRound]
  rw [h, Int.floor_intCast]
  norm_num
  rw [div_eq_iff h10]
  exact h.symm

/-! ## Claim theorems -/
/-- C1: for every `GraphQuery` with `query_type = path` in which
`source_entity` or `target_entity` is `None`, the query-building stage
fails with the validation error and the triple-store gateway is never
invoked for that request. -/
theorem path_missing_endpoint_no_gateway (q : GraphQuery)
    (hq : q.query_type = .path)
    (h : q.source_entity = none ∨ q.target_entity = none) :
    buildGraphSparql q =
      .error "Path queries require both source_entity and target_entity" ∧
    gatewayCalls q = 0 := by
  have herr : buildPathQuery q =
      .error "Path queries require both source_entity and target_entity" := by
    unfold buildPathQuery
    rcases h with h | h <;> rw [h] <;> simp [optStrTruthy]
  refine ⟨?_, ?_⟩
  · simp [buildGraphSparql, hq, herr]
  · simp [gatewayCalls, buildGraphSparql, hq, herr]

/-- C1 witness: a concrete path query with no source entity errors out and
makes zero gateway calls. -/
theorem path_missing_endpoint_no_gateway_witness :
    buildGraphSparql { query_type := .path, target_entity := some "http://x/b" } =
      .error "Path queries require both source_entity and target_entity" ∧
    gatewayCalls { query_type := .path, target_entity := some "http://x/b" } = 0 :=
  path_missing_endpoint_no_gateway
    { query_type := .path, target_entity := some "http://x/b" } rfl (Or.inl rfl)

theorem optListTruthy_eq_true_iff (o : Option (List String)) :
    optListTruthy o = true ↔ ∃ l, o = some l ∧ l ≠ [] := by
  cases o <;> simp [optListTruthy]

theorem optStrTruthy_eq_true_iff (o : Option String) :
    optStrTruthy o = true ↔ ∃ s, o = some s ∧ s ≠ "" := by
  cases o <;> simp [optStrTruthy, ← String.isEmpty_iff]

theorem optNatTruthy_eq_true_iff (o : Option ℕ) :
    optNatTruthy o = true ↔ ∃ n, o = some n ∧ n ≠ 0 := by
  cases o <;> simp [optNatTruthy]

theorem optDateTruthy_eq_true_iff (o : Option PyDate) :
    optDateTruthy o = true ↔ o ≠ none := by
  cases o <;> simp [optDateTruthy]

/-- C4 counterexample: a query whose only filter is `min_file_size = 0` has
every claimed "non-null" witness satisfied on the right, yet
`has_advanced_filters` is `False`, because Python `any` tests truthiness
and `0` is falsy. -/
theorem has_advanced_filters_nonnull_counterexample :
    ¬ (has_advanced_filters { query := "demo", min_file_size := some 0 } = true ↔
       someFilterNonNull { query := "demo", min_file_size := some 0 }) := by
  intro h
  have hf : has_advanced_filters { query := "demo", min_file_size := some 0 } = false := by
    decide
  have ht : someFilterNonNull { query := "demo", min_file_size := some 0 } := by
    simp [someFilterNonNull]
  rw [h.mpr ht] at hf
  cases hf

/-- C4 amended: `has_advanced_filters` is true iff at least one filter field
is truthy in Python's sense — a non-empty list, a non-empty author string, a
present date, a non-zero size bound, or a non-null `has_content` — and it is
false for an all-default query. -/
theorem has_advanced_filters_iff_truthy (q : UnifiedSearchQuery) :
    (has_advanced_filters q = true ↔
      ((∃ l, q.file_types = some l ∧ l ≠ []) ∨ (∃ l, q.wdo_classes = some l ∧ l ≠ []) ∨
       (∃ l, q.tags = some l ∧ l ≠ []) ∨ (∃ s, q.author = some s ∧ s ≠ "") ∨
       q.date_from ≠ none ∨ q.date_to ≠ none ∨
       (∃ n, q.min_file_size = some n ∧ n ≠ 0) ∨
       (∃ n, q.max_file_size = some n ∧ n ≠ 0) ∨
       q.has_content ≠ none)) ∧
    has_advanced_filters {} = false := by
  refine ⟨?_, by decide⟩
  simp [has_advanced_filters, optListTruthy_eq_true_iff, optStrTruthy_eq_true_iff,
    optNatTruthy_eq_true_iff, optDateTruthy_eq_true_iff, Bool.or_eq_true,
    Option.isSome_iff_ne_none, or_assoc]

/-- C3 counterexample: the extraction used for types,
`_extract_class_name`, breaks the claimed rule on the zero-separator
inputs `` `""` `` and `"Unknown"` (the default whenever a type variable is
unbound): it returns `"Resource"`, not the whole input string. -/
theorem localName_class_extraction_counterexample :
    extractClassName (strL "Unknown") ≠ localNameSpec (strL "Unknown") ∧
    extractClassName [] ≠ localNameSpec [] ∧
    extractClassName (strL "Unknown") = strL "Resource" := by
  decide

/-- C3 amended: the extractions used for labels and relationship names
return the text after the last `#` if the URI contains `#`, else the text
after the last `/` if it contains `/`, else the whole URI — for any number
of `#`/`/` occurrences.  The extraction used for types follows the same
rule only for inputs other than the empty string and `"Unknown"`, both of
which it maps to `"Resource"`. -/
theorem localName_extraction_corrected_spec (uri : List Char) :
    extractLabelFromUri uri = localNameSpec uri ∧
    extractRelationshipName uri = localNameSpec uri ∧
    (uri ≠ [] → uri ≠ strL "Unknown" → extractClassName uri = localNameSpec uri) ∧
    extractClassName [] = strL "Resource" ∧
    extractClassName (strL "Unknown") = strL "Resource" := by
  refine ⟨?_, ?_, ?_, by decide, by decide⟩
  · simp only [extractLabelFromUri, localNameSpec]
    split_ifs <;> first | rfl | exact getLastD_splitOnChar _ _
  · simp only [extractRelationshipName, localNameSpec]
    split_ifs <;> first | rfl | exact getLastD_splitOnChar _ _
  · intro h1 h2
    rw [extractClassName, if_neg (not_or.2 ⟨h1, h2⟩)]
    simp only [localNameSpec]
    split_ifs <;> first | rfl | exact getLastD_splitOnChar _ _

/-- C3 witness: the type extraction agrees with the local-name rule on the
ordinary class URI `http://x/#T`. -/
theorem localName_extraction_corrected_spec_witness :
    extractClassName (strL "http://x/#T") = localNameSpec (strL "http://x/#T") :=
  (localName_extraction_corrected_spec (strL "http://x/#T")).2.2.1
    (by decide) (by decide)

theorem relevance_demoRow1_eq : calculateRelevance demoRow1 (strL "demo") = 1 / 2 := by
  norm_num [calculateRelevance, demoRow1,
    show pyIn (pyLower (strL "demo")) (pyLower (strL "demo.py")) = true from by decide,
    show pyStarts (pyLower (strL "demo.py")) (pyLower (strL "demo")) = true from by decide,
    min_def]

theorem relevance_demoRow2_eq : calculateRelevance demoRow2 (strL "demo") = 4 / 5 := by
  norm_num [calculateRelevance, demoRow2,
    show pyIn (pyLower (strL "demo")) (pyLower (strL "demo.py")) = true from by decide,
    show pyStarts (pyLower (strL "demo.py")) (pyLower (strL "demo")) = true from by decide,
    show pyIn (pyLower (strL "demo")) (pyLower (strL "Demo Project")) = true from by decide,
    show strL "Demo Project" ≠ [] from by decide,
    min_def]

/-- C6 counterexample: for query `demo`, the row with filename `demo.py`
does not score 0.4 (the prefix bonus applies, giving 0.5), so the claimed
pair of scores (0.4, then 0.7 with the title) is false. -/
theorem relevance_demo_scores_counterexample :
    ¬ (calculateRelevance demoRow1 (strL "demo") = 0.4 ∧
       calculateRelevance demoRow2 (strL "demo") = 0.7) := by
  intro hc
  have h1 := hc.1
  rw [relevance_demoRow1_eq] at h1
  norm_num at h1

/-- C6 amended: for query `demo`, filename `demo.py` is both a substring and
a prefix match, so the row scores 0.4 + 0.1 = 0.5; adding title
`Demo Project` contributes 0.3 more, giving 0.8. -/
theorem relevance_demo_scores :
    calculateRelevance demoRow1 (strL "demo") = 0.5 ∧
    calculateRelevance demoRow2 (strL "demo") = 0.8 := by
  rw [relevance_demoRow1_eq, relevance_demoRow2_eq]
  norm_num

/-- C7: the relevance score always lies in [0,1], and adding a matching
title to a row whose filename match is already counted can only increase
or hold the score. -/
theorem relevance_clamped_monotone (r : SBinding) (q : List Char) :
    (0 ≤ calculateRelevance r q ∧ calculateRelevance r q ≤ 1) ∧
    ∀ t : List Char,
      pyIn (pyLower q) (pyLower (r.fileName.getD [])) = true →
      t ≠ [] →
      pyIn (pyLower q) (pyLower t) = true →
      calculateRelevance { r with title := none } q ≤
        calculateRelevance { r with title := some t } q := by
  obtain ⟨fn, ti, de, tg⟩ := r
  refine ⟨⟨?_, ?_⟩, ?_⟩
  · refine le_min ?_ (by norm_num)
    simp only [calculateRelevance]
    split_ifs <;> norm_num
  · exact min_le_right _ _
  · intro t hfn ht htm
    simp only [calculateRelevance]
    dsimp only
    simp only [Option.getD_none, Option.getD_some, ne_eq, htm, ht, not_false_eq_true,
      and_true, true_and, not_true_eq_false, false_and, if_true, if_false, ite_true,
      ite_false, eq_self_iff_true]
    refine min_le_min ?_ le_rfl
    split_ifs <;> norm_num

theorem extractLabelFromUri_of_no_sep {uri : List Char} (h1 : '#' ∉ uri) (h2 : '/' ∉ uri) :
    extractLabelFromUri uri = uri := by
  simp [extractLabelFromUri, h1, h2]

theorem processRow_closed (nodes : NodeMap) (edges : List GraphEdge) (b : GBinding)
    (hP : ∀ e ∈ edges, e.source ∈ nodes.map Prod.fst ∧ e.target ∈ nodes.map Prod.fst) :
    ∀ e ∈ (processRow (nodes, edges) b).2,
      e.source ∈ (processRow (nodes, edges) b).1.map Prod.fst ∧
      e.target ∈ (processRow (nodes, edges) b).1.map Prod.fst := by
  intro e he
  rcases processRow_edges nodes edges b with h | ⟨h, hs, ho⟩
  · rw [h] at he
    obtain ⟨h1, h2⟩ := hP e he
    exact ⟨processRow_keys_superset _ _ _ _ h1, processRow_keys_superset _ _ _ _ h2⟩
  · rw [h] at he
    rcases List.mem_append.1 he with he | he
    · obtain ⟨h1, h2⟩ := hP e he
      exact ⟨processRow_keys_superset _ _ _ _ h1, processRow_keys_superset _ _ _ _ h2⟩
    · simp only [List.mem_singleton] at he
      subst he
      exact ⟨processRow_subject_mem _ _ _ hs, processRow_object_mem _ _ _ ho⟩

theorem foldl_processRow_closed (results : List GBinding) (acc : NodeMap × List GraphEdge)
    (hK : ∀ kv ∈ acc.1, kv.1 = kv.2.id)
    (hP : ∀ e ∈ acc.2, e.source ∈ acc.1.map Prod.fst ∧ e.target ∈ acc.1.map Prod.fst) :
    (∀ kv ∈ (results.foldl processRow acc).1, kv.1 = kv.2.id) ∧
    (∀ e ∈ (results.foldl processRow acc).2,
      e.source ∈ (results.foldl processRow acc).1.map Prod.fst ∧
      e.target ∈ (results.foldl processRow acc).1.map Prod.fst) := by
  induction results generalizing acc with
  | nil => exact ⟨hK, hP⟩
  | cons b rest ih =>
    rw [List.foldl_cons]
    exact ih (processRow acc b) (processRow_idkey acc.1 acc.2 b hK)
      (processRow_closed acc.1 acc.2 b hP)

/-- C10: every edge in the projected result has both its source URI and its
target URI present as node ids — the projector never emits a dangling
edge. -/
theorem projector_never_emits_dangling_edge (results : List GBinding) :
    ∀ e ∈ (processGraphResults results).2,
      e.source ∈ (processGraphResults results).1.map GraphNode.id ∧
      e.target ∈ (processGraphResults results).1.map GraphNode.id := by
  intro e he
  have h := foldl_processRow_closed results ([], []) (by simp) (by simp)
  have hkeys : (results.foldl processRow ([], [])).1.map Prod.fst =
      (results.foldl processRow ([], [])).1.map (fun kv => kv.2.id) :=
    List.map_congr_left h.1
  simp only [processGraphResults] at he ⊢
  obtain ⟨h1, h2⟩ := h.2 e he
  rw [hkeys] at h1 h2
  constructor <;> rw [List.map_map] <;> assumption

/-- C10 witness: the one edge projected from a concrete row has both
endpoints among the projected node ids. -/
theorem projector_never_emits_dangling_edge_witness :
    edgeW.source ∈ (processGraphResults [edgeRowW]).1.map GraphNode.id ∧
    edgeW.target ∈ (processGraphResults [edgeRowW]).1.map GraphNode.id :=
  projector_never_emits_dangling_edge [edgeRowW] edgeW (by decide)

/-- C2 counterexample: the object value `httpfoo` matches no URI scheme
pattern, so the claim calls it a literal and promises no node and no edge;
the code tests `startswith('http')` and emits both a second node and an
edge for it. -/
theorem literal_object_claim_counterexample :
    uriSchemeShaped (strL "httpfoo") = false ∧
    (processGraphResults [literalRowX]).2 ≠ [] ∧
    (processGraphResults [literalRowX]).1.length = 2 := by
  decide

/-- C2 amended: for a binding row whose object value does not start with
`http`, one loop iteration adds no edge, creates no node other than
possibly the subject's, and, when the subject URI is non-empty, folds the
object value into the subject node's property bag under the predicate's
local name. -/
theorem literal_object_folds_into_subject (nodes : NodeMap) (edges : List GraphEdge)
    (b : GBinding) (ho : ¬ pyStarts (b.o.getD []) (strL "http") = true) :
    (processRow (nodes, edges) b).2 = edges ∧
    (∀ k, k ∈ (processRow (nodes, edges) b).1.map Prod.fst →
       k ∈ nodes.map Prod.fst ∨ k = b.s.getD []) ∧
    (b.s.getD [] ≠ [] →
       nodeProp (processRow (nodes, edges) b).1 (b.s.getD [])
         (extractRelationshipName (b.p.getD [])) = some (b.o.getD [])) := by
  have hobj : objectNodeStep (subjectNodeStep nodes b) b = subjectNodeStep nodes b :=
    objectNodeStep_of_not_http _ _ ho
  refine ⟨?_, ?_, ?_⟩
  · rcases processRow_edges nodes edges b with h | ⟨h, hs, hstart⟩
    · exact h
    · exact absurd hstart ho
  · intro k hk
    simp only [processRow, hobj] at hk
    repeat' split at hk
    all_goals dsimp only at hk
    all_goals
      first
        | exact keys_subjectNodeStep_cases _ _ _ hk
        | (rw [keys_updateNodeProp] at hk
           exact keys_subjectNodeStep_cases _ _ _ hk)
  · intro hs
    have hmem : b.s.getD [] ∈ (objectNodeStep (subjectNodeStep nodes b) b).map Prod.fst := by
      rw [hobj]
      exact subject_mem_subjectNodeStep _ _ hs
    obtain ⟨n, hn⟩ := lookup_isSome_of_mem_keys hmem
    simp only [processRow]
    rw [if_neg (fun h => ho h.2), if_pos (⟨hs, ho⟩ :
      b.s.getD [] ≠ [] ∧ ¬ pyStarts (b.o.getD []) (strL "http") = true), if_pos hmem]
    dsimp only
    unfold nodeProp
    rw [lookupVal_updateNodeProp, hn]
    exact lookupVal_setProp _ _ _

/-- C2 witness: on the claim's concrete row, the projector emits zero edges
and stores `hasFileSize = "1024"` on the subject node. -/
theorem literal_object_folds_into_subject_witness :
    (processRow ([], []) fileSizeRow).2 = [] ∧
    nodeProp (processRow ([], []) fileSizeRow).1 (strL "http://x/a")
      (extractRelationshipName (strL "http://x/#hasFileSize")) = some (strL "1024") :=
  ⟨(literal_object_folds_into_subject [] [] fileSizeRow (by decide)).1,
   (literal_object_folds_into_subject [] [] fileSizeRow (by decide)).2.2 (by decide)⟩

/-- C9 counterexample: the subject URI `http://x/a/` is non-empty and has no
explicit label, yet the derived node label is the empty string, because the
text after the last `/` is empty. -/
theorem subject_label_empty_counterexample :
    strL "http://x/a/" ≠ [] ∧
    (processGraphResults [trailingSlashRow]).1.map GraphNode.label = [[]] := by
  decide

/-- C9 amended: when the non-empty subject URI contains neither `#` nor `/`
(no fragment or path segment is derivable) and carries no explicit label,
the subject node's label is the URI itself — hence non-empty in that
case. -/
theorem subject_label_defaults_to_uri (b : GBinding) (uri : List Char)
    (hs : b.s = some uri) (hl : b.sLabel = none) (hne : uri ≠ [])
    (h1 : '#' ∉ uri) (h2 : '/' ∉ uri) :
    ((processGraphResults [b]).1.map GraphNode.label).head? = some uri := by
  have hsub : subjectNodeStep [] b =
      [(uri, { id := uri, label := extractLabelFromUri uri,
               type := extractClassName (b.sType.getD (strL "Unknown")),
               properties := [(strL "uri", uri), (strL "full_type",
                 b.sType.getD (strL "Unknown"))] })] := by
    simp only [subjectNodeStep, hs, hl, Option.getD_some, Option.getD_none]
    rw [if_pos ⟨hne, by simp⟩]
    rfl
  simp only [processGraphResults, List.foldl_cons, List.foldl_nil, processRow, hsub]
  rw [extractLabelFromUri_of_no_sep h1 h2]
  simp only [objectNodeStep, updateNodeProp]
  repeat' split
  all_goals simp [hs]

/-- C9 witness: the subject node projected from URI `root` is labelled
`root`. -/
theorem subject_label_defaults_to_uri_witness :
    ((processGraphResults [plainUriRow]).1.map GraphNode.label).head? =
      some (strL "root") :=
  subject_label_defaults_to_uri plainUriRow (strL "root") rfl rfl
    (by decide) (by decide) (by decide)

/-- C5 amended: density is `round(e / (n(n-1)/2), 4)` for more than one
node; for at most one node the divisor falls back to 1, so the reported
density equals the edge count (not always 0); 4 nodes and 3 edges give
0.5. -/
theorem graph_density_formula (nodes : List GraphNode) (edges : List GraphEdge) :
    (1 < nodes.length →
      (calculateGraphAnalytics nodes edges).density =
        pyRound ((edges.length : ℚ) /
          ((nodes.length : ℚ) * ((nodes.length : ℚ) - 1) / 2)) 4) ∧
    (nodes.length ≤ 1 →
      (calculateGraphAnalytics nodes edges).density = (edges.length : ℚ)) ∧
    (nodes.length = 4 → edges.length = 3 →
      (calculateGraphAnalytics nodes edges).density = 1 / 2) := by
  have hmain : ∀ _ : 1 < nodes.length,
      (calculateGraphAnalytics nodes edges).density =
        pyRound ((edges.length : ℚ) /
          ((nodes.length : ℚ) * ((nodes.length : ℚ) - 1) / 2)) 4 := by
    intro hn
    have h2 : (2 : ℚ) ≤ (nodes.length : ℚ) := by exact_mod_cast hn
    have hp : 0 < (nodes.length : ℚ) * ((nodes.length : ℚ) - 1) / 2 := by nlinarith
    simp only [calculateGraphAnalytics]
    rw [if_pos hn, if_pos hp]
  refine ⟨hmain, ?_, ?_⟩
  · intro hn
    have hn' : ¬ 1 < nodes.length := by omega
    simp only [calculateGraphAnalytics]
    rw [if_neg hn', if_pos (by norm_num : (0:ℚ) < 1), div_one]
    exact pyRound_eq_self (z := edges.length * 10000) (by push_cast; ring)
  · intro hn he
    rw [hmain (by omega), hn, he]
    have h34 : ((3:ℕ) : ℚ) / (((4:ℕ) : ℚ) * (((4:ℕ) : ℚ) - 1) / 2) = 1 / 2 := by norm_num
    rw [h34]
    exact pyRound_eq_self (z := 5000) (by norm_num)

/-- C5 counterexample: a projected graph with one node and one (self-loop)
edge has density 1, not 0, because the divisor falls back to 1 when
`n ≤ 1`. -/
theorem density_selfloop_counterexample :
    (processGraphResults [selfLoopRow]).1.length = 1 ∧
    (calculateGraphAnalytics (processGraphResults [selfLoopRow]).1
        (processGraphResults [selfLoopRow]).2).density = 1 := by
  have hp : processGraphResults [selfLoopRow] =
      ([{ id := strL "http://x/a", label := strL "a", type := strL "Resource",
          properties := [(strL "uri", strL "http://x/a"),
            (strL "full_type", strL "Unknown")] }],
       [{ source := strL "http://x/a", target := strL "http://x/a",
          relationship := strL "p",
          properties := [(strL "predicate_uri", strL "http://x/p")] }]) := by
    decide
  rw [hp]
  refine ⟨rfl, ?_⟩
  simp only [calculateGraphAnalytics]
  norm_num
  exact pyRound_eq_self (z := 10000) (by norm_num)

/-- C5 witness: a 4-node, 3-edge graph has density 0.5. -/
theorem graph_density_formula_witness :
    (calculateGraphAnalytics nodesW4 edgesW3).density = 1 / 2 :=
  (graph_density_formula nodesW4 edgesW3).2.2 (by rfl) (by rfl)

/-- C8 counterexample: for query text `demo`, the ranking expression the
advanced builder emits differs from the basic semantic one — the tag term
and the `BOUND` guards are missing. -/
theorem advanced_semantic_ranking_counterexample :
    advancedSemanticRankingText "demo" ≠ semanticRankingText "demo" := by decide

set_option maxRecDepth 4000 in
/-- C8 amended: for every query text, the advanced semantic `ORDER BY`
ranks by filename = 4, title = 3, description = 2 with no `BOUND` guards
and no tag term, while basic semantic ranks by the guarded 4/3/2/1 terms
including the tag — the two expressions are rendered from different term
lists. -/
theorem advanced_semantic_ranking_shape (qt : String) :
    advancedSemanticRankingText qt =
      rankingText qt
        [{ field := "fileName", guarded := false, weight := 4 },
         { field := "title", guarded := false, weight := 3 },
         { field := "description", guarded := false, weight := 2 }] ∧
    semanticRankingText qt =
      rankingText qt
        [{ field := "fileName", guarded := false, weight := 4 },
         { field := "title", guarded := true, weight := 3 },
         { field := "description", guarded := true, weight := 2 },
         { field := "tag", guarded := true, weight := 1 }] := by
  constructor <;>
    · apply String.ext
      simp only [advancedSemanticRankingText, semanticRankingText, rankingText, joinSep,
        rankTermText, List.map_cons, List.map_nil, String.data_append]
      simp [show toString (4:ℕ) = "4" from rfl, show toString (3:ℕ) = "3" from rfl,
        show toString (2:ℕ) = "2" from rfl, show toString (1:ℕ) = "1" from rfl]

/-- C7 witness: the monotonicity and clamping facts instantiated on the
`demo.py` / `Demo Project` row. -/
theorem relevance_clamped_monotone_witness :
    (0 ≤ calculateRelevance { fileName := some (strL "demo.py") } (strL "demo") ∧
     calculateRelevance { fileName := some (strL "demo.py") } (strL "demo") ≤ 1) ∧
    calculateRelevance { fileName := some (strL "demo.py"), title := none } (strL "demo") ≤
      calculateRelevance
        { fileName := some (strL "demo.py"), title := some (strL "Demo Project") }
        (strL "demo") :=
  ⟨(relevance_clamped_monotone { fileName := some (strL "demo.py") } (strL "demo")).1,
   (relevance_clamped_monotone { fileName := some (strL "demo.py") } (strL "demo")).2
     (strL "Demo Project") (by decide) (by decide) (by decide)⟩

end SBEKMS

